import Mathlib

/-!
Verification development for the `maptoposter` repository
(`app.py`, a Flask order-fulfilment app, and `create_map_poster.py`,
the map renderer).  The Python code is shallowly embedded: pure helpers
become Lean functions, the file-system stores (orders, invoices,
poster/preview files) become explicit components of an `AppState`, HTTP
routes become state-transition functions, and external services
(geocoder, OSM fetchers, Stripe, SMTP) become oracle parameters.
-/

/-! ## Python string helpers

`str.lower`, `str.strip` and `str.replace` are modelled character-wise
so that the kernel can evaluate them on concrete inputs. -/

/-- Python `s.lower()`: lower-case every character. -/
def pyLower (s : String) : String := ⟨s.data.map Char.toLower⟩

/-- Python `s.strip()`: drop whitespace from both ends. -/
def pyStrip (s : String) : String :=
  ⟨((s.data.dropWhile Char.isWhitespace).reverse.dropWhile Char.isWhitespace).reverse⟩

/-- Replace every occurrence of a (non-empty) pattern, fuel-indexed so the
kernel can reduce it.  Fuel is the input length, which suffices because
each step consumes at least one character. -/
def pyReplaceAux (pat rep : List Char) : Nat → List Char → List Char
  | 0, s => s
  | _ + 1, [] => []
  | n + 1, c :: cs =>
    if pat.isPrefixOf (c :: cs) then
      rep ++ pyReplaceAux pat rep n (List.drop (pat.length - 1) cs)
    else
      c :: pyReplaceAux pat rep n cs

/-- Python `s.replace(pat, rep)` for a non-empty pattern. -/
def pyReplace (s pat rep : String) : String :=
  if pat.data = [] then s
  else ⟨pyReplaceAux pat.data rep.data s.data.length s.data⟩

/-- Python `s.lower().replace(' ', '_')`, the city slug used in poster
filenames (`app.py` lines 403-405, 534-537, 616-619). -/
def citySlug (city : String) : String :=
  ⟨(pyLower city).data.map (fun c => if c = ' ' then '_' else c)⟩

/-- Poster filename `f"{city_slug}_{theme}_{timestamp}.png"`; the
timestamp (`datetime.now().strftime(...)`) is a parameter. -/
def mkPosterFilename (city theme ts : String) : String :=
  citySlug city ++ "_" ++ theme ++ "_" ++ ts ++ ".png"

/-! ## The Order data model (`app.py` lines 146-160)

`coordinates` is `tuple[float, float] | None` in memory, but the JSON
store turns tuples into lists on reload (`json.loads` produces a list
and `Order(**data)` keeps it).  `PyCoords` records which Python shape
the value has, because the dataclass `==` distinguishes them.
Latitude/longitude are carried opaquely, so they are embedded as `ℚ`. -/

inductive PyCoords where
  | tup (lat lon : ℚ)
  | lst (lat lon : ℚ)
  deriving DecidableEq

/-- The `Order` dataclass. -/
structure Order where
  session_id : String
  city : String
  country : String
  theme : String
  distance : ℤ
  size : String
  dpi : ℤ
  email : Option String
  poster_filename : String
  invoice_filename : String
  created_at : String
  paid : Bool
  coordinates : Option PyCoords
  deriving DecidableEq

/-- The JSON document written by `save_order`: `json.dumps(asdict(order))`
serialises a coordinate tuple as a JSON array (and `None` as `null`),
so the document retains only the numeric contents. -/
structure OrderDoc where
  session_id : String
  city : String
  country : String
  theme : String
  distance : ℤ
  size : String
  dpi : ℤ
  email : Option String
  poster_filename : String
  invoice_filename : String
  created_at : String
  paid : Bool
  coordinates : Option (ℚ × ℚ)
  deriving DecidableEq

/-- Numeric contents of a Python coordinates value. -/
def coordsVal : Option PyCoords → Option (ℚ × ℚ)
  | none => none
  | some (.tup a b) => some (a, b)
  | some (.lst a b) => some (a, b)

/-- Serialisation `json.dumps(asdict(order))`. -/
def orderToDoc (o : Order) : OrderDoc :=
  { session_id := o.session_id, city := o.city, country := o.country
    theme := o.theme, distance := o.distance, size := o.size, dpi := o.dpi
    email := o.email, poster_filename := o.poster_filename
    invoice_filename := o.invoice_filename, created_at := o.created_at
    paid := o.paid, coordinates := coordsVal o.coordinates }

/-- Deserialisation `Order(**json.loads(...))`: a JSON array comes back
as a Python list. -/
def docToOrder (d : OrderDoc) : Order :=
  { session_id := d.session_id, city := d.city, country := d.country
    theme := d.theme, distance := d.distance, size := d.size, dpi := d.dpi
    email := d.email, poster_filename := d.poster_filename
    invoice_filename := d.invoice_filename, created_at := d.created_at
    paid := d.paid, coordinates := d.coordinates.map (fun p => .lst p.1 p.2) }

/-- The orders directory: one JSON document per `session_id`. -/
def Store := String → Option OrderDoc

/-- The `save_order` (`app.py` lines 197-199): write
`ORDERS_DIR/{session_id}.json`. -/
def save_order (store : Store) (o : Order) : Store :=
  fun k => if k = o.session_id then some (orderToDoc o) else store k

/-- The `load_order` (`app.py` lines 202-207): read the document back, or
`FileNotFoundError` (here `none`) when absent. -/
def load_order (store : Store) (session_id : String) : Option Order :=
  (store session_id).map docToOrder

/-- What a tuple-coordinates order becomes after one save/load
round-trip: every field survives except that `coordinates` comes back
as a Python list. -/
def listifyOrder (o : Order) : Order := docToOrder (orderToDoc o)

/-! ## Invoices (`app.py` lines 210-225)

`build_invoice` writes `INVOICES_DIR/{order.invoice_filename}` with a
denormalised snapshot of the order plus the configured price/currency. -/

/-- The JSON invoice document. -/
structure Invoice where
  invoice_id : String
  created_at : String
  city : String
  country : String
  theme : String
  distance_meters : ℤ
  size : String
  dpi : ℤ
  price_cents : ℕ
  currency : String
  email : String
  deriving DecidableEq

/-- The invoices directory, keyed by invoice filename. -/
def InvStore := String → Option Invoice

/-- The invoice contents built from an order (`PRICE_CENTS` and
`PRICE_CURRENCY` come from the environment, passed as parameters). -/
def mkInvoice (priceCents : ℕ) (priceCurrency : String) (o : Order) : Invoice :=
  { invoice_id := pyReplace o.invoice_filename ".json" ""
    created_at := o.created_at, city := o.city, country := o.country
    theme := o.theme, distance_meters := o.distance, size := o.size
    dpi := o.dpi, price_cents := priceCents, currency := priceCurrency
    email := o.email.getD "" }

/-- The `build_invoice`: write the invoice file for this order. -/
def build_invoice (priceCents : ℕ) (priceCurrency : String)
    (invs : InvStore) (o : Order) : InvStore :=
  fun k => if k = o.invoice_filename then some (mkInvoice priceCents priceCurrency o) else invs k

/-! ## Road bucketing (`create_map_poster.py` lines 162-202) -/

/-- A value of the `highway` edge attribute: a string or a list. -/
inductive HighwayTag where
  | str (s : String)
  | list (l : List String)
  deriving DecidableEq

/-- A graph edge, reduced to the attribute the bucketing reads
(`data.get('highway', 'unclassified')`; `none` = key absent). -/
structure Edge where
  highway : Option HighwayTag
  deriving DecidableEq

/-- The road-colour entries of a theme dictionary. -/
structure RoadTheme where
  road_motorway : String
  road_primary : String
  road_secondary : String
  road_tertiary : String
  road_residential : String
  road_default : String
  deriving DecidableEq

/-- The `data.get('highway', 'unclassified')` followed by the list
normalisation (`highway[0] if highway else 'unclassified'`). -/
def resolveHighway (e : Edge) : String :=
  match e.highway with
  | none => "unclassified"
  | some (.str s) => s
  | some (.list []) => "unclassified"
  | some (.list (h :: _)) => h

/-- The body of the edge loop: the if/elif chain of the source,
appending one colour and one width to the accumulated lists. -/
def edgeStep (theme : RoadTheme) (acc : List String × List ℚ) (e : Edge) :
    List String × List ℚ :=
  let highway := resolveHighway e
  let cw : String × ℚ :=
    if ["motorway", "motorway_link"].contains highway then
      (theme.road_motorway, 1.2)
    else if ["trunk", "trunk_link", "primary", "primary_link"].contains highway then
      (theme.road_primary, 1.0)
    else if ["secondary", "secondary_link"].contains highway then
      (theme.road_secondary, 0.8)
    else if ["tertiary", "tertiary_link"].contains highway then
      (theme.road_tertiary, 0.6)
    else if ["residential", "living_street", "unclassified"].contains highway then
      (theme.road_residential, 0.4)
    else
      (theme.road_default, 0.4)
  (acc.1 ++ [cw.1], acc.2 ++ [cw.2])

/-- The `get_edge_colors_and_widths_by_type`: the single-pass loop over the
edges, starting from two empty lists. -/
def get_edge_colors_and_widths_by_type (theme : RoadTheme) (G : List Edge) :
    List String × List ℚ :=
  G.foldl (edgeStep theme) ([], [])

/-- The per-edge bucket colour as the claim enumerates it. -/
def edgeColorSpec (theme : RoadTheme) (e : Edge) : String :=
  let h := resolveHighway e
  if h = "motorway" ∨ h = "motorway_link" then theme.road_motorway
  else if h = "trunk" ∨ h = "trunk_link" ∨ h = "primary" ∨ h = "primary_link" then
    theme.road_primary
  else if h = "secondary" ∨ h = "secondary_link" then theme.road_secondary
  else if h = "tertiary" ∨ h = "tertiary_link" then theme.road_tertiary
  else if h = "residential" ∨ h = "living_street" ∨ h = "unclassified" then
    theme.road_residential
  else theme.road_default

/-- The per-edge bucket width as the claim enumerates it. -/
def edgeWidthSpec (e : Edge) : ℚ :=
  let h := resolveHighway e
  if h = "motorway" ∨ h = "motorway_link" then 1.2
  else if h = "trunk" ∨ h = "trunk_link" ∨ h = "primary" ∨ h = "primary_link" then 1.0
  else if h = "secondary" ∨ h = "secondary_link" then 0.8
  else if h = "tertiary" ∨ h = "tertiary_link" then 0.6
  else 0.4

/-! ## Geocoding (`create_map_poster.py` lines 204-255)

`get_coordinates` consults the module-level `_geocode_cache`, calls the
Nominatim geocoder on a miss, caches successes, and raises `ValueError`
when the geocoder finds nothing.  The external geocoder is an oracle
`String → Option Location`; `now` stands for `time.time()` at the
moment `_last_geocode_time` is updated.  The result type
`Except String (Option (ℚ × ℚ))` reflects Python's dynamic typing: an
exception, or a returned value that could in principle be `None`. -/

/-- A geopy location. -/
structure Location where
  latitude : ℚ
  longitude : ℚ
  address : String
  deriving DecidableEq

/-- The mutable module state: `_geocode_cache` (key `"city, country"`
lower-cased, value `(lat, lon, address)`) and `_last_geocode_time`. -/
structure GeoState where
  cache : String → Option (ℚ × ℚ × String)
  lastTime : ℚ

/-- Outcome of one `get_coordinates` call: the Python result (exception
or value), the new module state, and whether the external geocoder was
invoked. -/
structure GeoOutcome where
  result : Except String (Option (ℚ × ℚ))
  state : GeoState
  geocoderCalled : Bool

/-- The `f"{city.lower()}, {country.lower()}"`, the cache key. -/
def geoKey (city country : String) : String :=
  pyLower city ++ ", " ++ pyLower country

/-- The `f"{city}, {country}"`, the query sent to the geocoder. -/
def geoQuery (city country : String) : String := city ++ ", " ++ country

/-- The `ValueError` message. -/
def geoErrMsg (city country : String) : String :=
  "Could not find coordinates for " ++ city ++ ", " ++ country

/-- The `get_coordinates` (`cache_key` is `geoKey city country`, inlined). -/
def get_coordinates (geocode : String → Option Location) (now : ℚ)
    (st : GeoState) (city country : String) : GeoOutcome :=
  match st.cache (geoKey city country) with
  | some (lat, lon, _addr) =>
    { result := .ok (some (lat, lon)), state := st, geocoderCalled := false }
  | none =>
    match geocode (geoQuery city country) with
    | some loc =>
      { result := .ok (some (loc.latitude, loc.longitude))
        state :=
          { cache := fun k =>
              if k = geoKey city country then some (loc.latitude, loc.longitude, loc.address)
              else st.cache k
            lastTime := now }
        geocoderCalled := true }
    | none =>
      { result := .error (geoErrMsg city country)
        state := { st with lastTime := now }
        geocoderCalled := true }

/-! ## Layer fetching (`create_map_poster.py` lines 258-312)

The three fetchers call `osmnx`; the underlying library calls are
oracles (`graph_from_point`, `features_from_point` with their tag
dictionaries), returning `Except` to model exceptions.  The
`ThreadPoolExecutor` fan-out/join is modelled by `Future` values whose
`result` forces the submitted call. -/

/-- Tags for the water query. -/
def waterTags : List (String × String) := [("natural", "water"), ("waterway", "riverbank")]

/-- Tags for the parks query. -/
def parkTags : List (String × String) := [("leisure", "park"), ("landuse", "grass")]

/-- The `_fetch_street_network`: no exception handler, failures propagate. -/
def _fetch_street_network {P G : Type} (graph_from_point : P → ℕ → Except String G)
    (point : P) (dist : ℕ) : Except String G :=
  graph_from_point point dist

/-- The `_fetch_water_features`: `try ... except: return None`. -/
def _fetch_water_features {P F : Type}
    (features_from_point : P → List (String × String) → ℕ → Except String F)
    (point : P) (dist : ℕ) : Option F :=
  match features_from_point point waterTags dist with
  | .ok f => some f
  | .error _ => none

/-- The `_fetch_parks`: `try ... except: return None`. -/
def _fetch_parks {P F : Type}
    (features_from_point : P → List (String × String) → ℕ → Except String F)
    (point : P) (dist : ℕ) : Option F :=
  match features_from_point point parkTags dist with
  | .ok f => some f
  | .error _ => none

/-- A submitted task: forcing it runs the call. -/
structure Future (γ : Type) where
  run : Unit → γ

/-- The `executor.submit(f, point, dist)`. -/
def Future.submit {α β γ : Type} (f : α → β → γ) (a : α) (b : β) : Future γ :=
  ⟨fun _ => f a b⟩

/-- The `future.result()`. -/
def Future.force {γ : Type} (fu : Future γ) : γ := fu.run ()

/-- The data-fetch phase of `create_poster` (lines 281-310): submit the
three tasks, then join them in the order of the `futures` dict
(insertion order: streets, water, parks), binding `G`, `water`,
`parks`. -/
def create_poster_fetch {P G F : Type}
    (graph_from_point : P → ℕ → Except String G)
    (features_from_point : P → List (String × String) → ℕ → Except String F)
    (point : P) (dist : ℕ) : Except String G × Option F × Option F :=
  let future_streets := Future.submit (_fetch_street_network graph_from_point) point dist
  let future_water := Future.submit (_fetch_water_features features_from_point) point dist
  let future_parks := Future.submit (_fetch_parks features_from_point) point dist
  let g := future_streets.force
  let water := future_water.force
  let parks := future_parks.force
  (g, water, parks)

/-- Fetching the three layers sequentially, as the spec describes the
fan-out/join to be equivalent to. -/
def sequential_fetch_spec {P G F : Type}
    (graph_from_point : P → ℕ → Except String G)
    (features_from_point : P → List (String × String) → ℕ → Except String F)
    (point : P) (dist : ℕ) : Except String G × Option F × Option F :=
  (_fetch_street_network graph_from_point point dist,
   _fetch_water_features features_from_point point dist,
   _fetch_parks features_from_point point dist)

/-! ## Application configuration and state (`app.py`)

Environment-derived configuration and external services are collected
in `Config`; the mutable file system (orders, invoices, final posters,
previews) plus the observable "emails actually sent" log form
`AppState`.  Responses are reduced to the constructors the claims talk
about. -/

/-- Environment configuration and external-service oracles. -/
structure Config where
  /-- The `POSTER_PRICE_CENTS`. -/
  priceCents : ℕ
  /-- The `POSTER_PRICE_CURRENCY`. -/
  priceCurrency : String
  /-- The `poster.AVAILABLE_THEMES` (the themes directory listing). -/
  availableThemes : List String
  /-- The `stripe_ready()`. -/
  stripeReady : Bool
  /-- The `STRIPE_WEBHOOK_SECRET` is configured. -/
  webhookSecretConfigured : Bool
  /-- The `EMAIL_SENT_FLAG` environment variable. -/
  emailSentFlag : Bool
  /-- The `SMTP_HOST`, `SMTP_USER`, `SMTP_PASS` and `FROM_EMAIL` all set. -/
  smtpOk : Bool
  /-- The email-format regex of `/create`, abstracted. -/
  emailFormatOk : String → Bool
  /-- The `poster.get_coordinates` as seen from `app.py`: an exception, or a
  dynamically-typed result that could in principle be `None`. -/
  geocode : String → String → Except String (Option (ℚ × ℚ))
  /-- The `stripe.checkout.Session.create(...).url` for a given order id. -/
  stripeCheckoutUrl : String → String

/-- The file-system state the routes read and write. -/
structure AppState where
  /-- The `ORDERS_DIR`: one JSON document per session id. -/
  orders : Store
  /-- The `INVOICES_DIR`: one JSON document per invoice filename. -/
  invoices : InvStore
  /-- Final poster files in `POSTERS_DIR` written by the app. -/
  posters : List String
  /-- Preview files in `PREVIEWS_DIR`. -/
  previews : List String
  /-- Session ids for which an email was successfully sent. -/
  emails : List String

/-- The empty initial state (fresh directories). -/
def initState : AppState :=
  { orders := fun _ => none, invoices := fun _ => none
    posters := [], previews := [], emails := [] }

/-- HTTP responses, reduced to what the claims distinguish. -/
inductive Resp where
  /-- The `render_index(error=msg)`. -/
  | indexError (msg : String)
  /-- An HTTP redirect. -/
  | redirect (loc : String)
  /-- The `abort(code)`. -/
  | abort (code : ℕ)
  /-- The `processing.html`. -/
  | processing
  /-- The `result.html`. -/
  | resultPage (emailSent : Bool)
  /-- The `send_file`. -/
  | file (name : String)
  /-- A webhook JSON reply with its HTTP code. -/
  | webhookReply (status : String) (code : ℕ)
  /-- An uncaught exception propagating out of the route (HTTP 500). -/
  | serverError
  deriving DecidableEq

/-- The friendly geocode-failure message of `/create`. -/
def cityNotFoundMsg : String :=
  "We could not find that city. Please double-check the spelling."

/-- The `SIZE_OPTIONS` (`app.py` lines 92-103). -/
def SIZE_OPTIONS : List (String × (ℕ × ℕ)) :=
  [("8x10", (8, 10)), ("12x16", (12, 16)), ("18x24", (18, 24)), ("24x36", (24, 36)),
   ("10x8", (10, 8)), ("16x12", (16, 12)), ("24x18", (24, 18)), ("36x24", (36, 24))]

/-- The `send_email` (`app.py` lines 228-269): `False` unless the SMTP
configuration is complete, the order has an email, and both the poster
file and the invoice file exist; otherwise the message is sent. -/
def send_email (cfg : Config) (s : AppState) (o : Order) : Bool :=
  cfg.smtpOk && o.email.isSome && s.posters.contains o.poster_filename
    && (s.invoices o.invoice_filename).isSome

/-- The coordinates a fulfilment route uses: the order's cached pair,
or a fresh `poster.get_coordinates` call when the field is `None`
(`app.py` lines 398-401, 471-475, 529-532, 611-614).  `none` means the
route dies with an exception (geocode raised, or — dynamically — the
unpacking of a `None` point would fail inside `create_poster`). -/
def coordsOf (cfg : Config) (o : Order) : Option (ℚ × ℚ) :=
  match o.coordinates with
  | some (.tup a b) => some (a, b)
  | some (.lst a b) => some (a, b)
  | none =>
    match cfg.geocode o.city o.country with
    | .ok (some c) => some c
    | _ => none

/-- The form fields read by `/create`.  `distance`/`dpi` are the result
of `int(...)` on the raw field (`none` = `ValueError`, with the string
defaults `"29000"`/`"300"` already applied for absent fields);
`theme`/`size` are `None` when absent. -/
structure CreateForm where
  city : String
  country : String
  theme : Option String
  distance : Option ℤ
  dpi : Option ℤ
  size : Option String
  email : String

/-- The `/create` (`app.py` lines 287-375).  `sid` is the fresh
`uuid.uuid4().hex` and `ts` the `datetime.now(...)` timestamp. -/
def create (cfg : Config) (s : AppState) (f : CreateForm) (sid ts : String) :
    AppState × Resp :=
  let city := pyStrip f.city
  let country := pyStrip f.country
  let theme := f.theme.getD "feature_based"
  match f.distance with
  | none => (s, .indexError "Invalid distance value.")
  | some distance =>
    if distance < 3000 ∨ 40000 < distance then
      (s, .indexError "Distance must be between 3,000 and 40,000 meters.")
    else
      match f.dpi with
      | none => (s, .indexError "Invalid DPI value.")
      | some dpi =>
        if ¬ ([(150 : ℤ), 240, 300].contains dpi) then
          (s, .indexError "DPI must be 150, 240, or 300.")
        else
          let size := f.size.getD "12x16"
          let emailStr := pyStrip f.email
          let email : Option String := if emailStr = "" then none else some emailStr
          if email.isSome ∧ ¬ cfg.emailFormatOk emailStr then
            (s, .indexError "Invalid email address format.")
          else if city = "" ∨ country = "" then
            (s, .indexError "City and country are required.")
          else if (SIZE_OPTIONS.lookup size).isNone then
            (s, .indexError "Unsupported size selection.")
          else if ¬ (cfg.availableThemes.contains theme) then
            (s, .indexError "Invalid theme selected.")
          else
            match cfg.geocode city country with
            | .error _ => (s, .serverError)
            | .ok none => (s, .indexError cityNotFoundMsg)
            | .ok (some coords) =>
              let preview_filename := "preview_" ++ sid ++ "_" ++ theme ++ ".png"
              let invoice_filename := sid ++ ".json"
              let order : Order :=
                { session_id := sid, city := city, country := country
                  theme := theme, distance := distance, size := size, dpi := dpi
                  email := email, poster_filename := ""
                  invoice_filename := invoice_filename, created_at := ts
                  paid := false, coordinates := some (.tup coords.1 coords.2) }
              let s1 := { s with previews := preview_filename :: s.previews }
              let s2 := { s1 with orders := save_order s1.orders order }
              let s3 := { s2 with
                invoices := build_invoice cfg.priceCents cfg.priceCurrency s2.invoices order }
              (s3, .redirect ("/preview/" ++ sid))

/-- The `/purchase/<session_id>` (`app.py` lines 492-518). -/
def purchase (cfg : Config) (s : AppState) (sid : String) (formTheme : Option String) :
    AppState × Resp :=
  match load_order s.orders sid with
  | none => (s, .abort 404)
  | some o =>
    let selected := formTheme.getD o.theme
    let o1 := if selected ≠ o.theme then { o with theme := selected } else o
    let s1 := if selected ≠ o.theme then { s with orders := save_order s.orders o1 } else s
    let resp : Resp :=
      if cfg.stripeReady then .redirect (cfg.stripeCheckoutUrl o.session_id)
      else .redirect ("/generate-final/" ++ o.session_id)
    (s1, resp)

/-- The `/generate-final/<session_id>` (`app.py` lines 521-562). -/
def generate_final (cfg : Config) (s : AppState) (sid ts : String) :
    AppState × Resp :=
  match load_order s.orders sid with
  | none => (s, .abort 404)
  | some o =>
    match coordsOf cfg o with
    | none => (s, .serverError)
    | some _point =>
      match SIZE_OPTIONS.lookup o.size with
      | none => (s, .serverError)
      | some _figsize =>
        let poster_filename := mkPosterFilename o.city o.theme ts
        let s1 := { s with posters := poster_filename :: s.posters }
        let o1 := { o with poster_filename := poster_filename, paid := true }
        let s2 := { s1 with orders := save_order s1.orders o1 }
        let sent := if o1.email.isSome then send_email cfg s2 o1 else false
        let s3 := if sent then { s2 with emails := o1.session_id :: s2.emails } else s2
        (s3, .resultPage sent)

/-- The `/success` (`app.py` lines 378-434). -/
def successRoute (cfg : Config) (s : AppState) (orderId : Option String) (ts : String) :
    AppState × Resp :=
  match orderId with
  | none => (s, .abort 400)
  | some oid =>
    if oid = "" then (s, .abort 400)
    else
      match load_order s.orders oid with
      | none => (s, .abort 404)
      | some o =>
        if ¬ o.paid then (s, .processing)
        else
          let gen : Option (AppState × Order) :=
            if o.poster_filename = "" then
              match coordsOf cfg o with
              | none => none
              | some _pt =>
                match SIZE_OPTIONS.lookup o.size with
                | none => none
                | some _fs =>
                  let poster_filename := mkPosterFilename o.city o.theme ts
                  let s1 := { s with posters := poster_filename :: s.posters }
                  let o1 := { o with poster_filename := poster_filename, paid := true }
                  some ({ s1 with orders := save_order s1.orders o1 }, o1)
            else some (s, o)
          match gen with
          | none => (s, .serverError)
          | some (s2, o2) =>
            let sent :=
              if o2.email.isSome ∧ ¬ cfg.emailSentFlag then send_email cfg s2 o2 else false
            let s3 := if sent then { s2 with emails := o2.session_id :: s2.emails } else s2
            (s3, .resultPage sent)

/-- A parsed Stripe event (`stripe.Webhook.construct_event` output):
its type and the `metadata.order_id` of the checkout session. -/
structure StripeEvent where
  type : String
  orderId : Option String
  deriving DecidableEq

/-- The `/webhook/stripe` (`app.py` lines 565-647).  `ev = none` models an
invalid payload or signature (`construct_event` raised). -/
def stripe_webhook (cfg : Config) (s : AppState) (ev : Option StripeEvent) (ts : String) :
    AppState × Resp :=
  if ¬ cfg.webhookSecretConfigured then (s, .abort 500)
  else
    match ev with
    | none => (s, .abort 400)
    | some e =>
      if e.type = "checkout.session.completed" then
        match e.orderId with
        | none => (s, .webhookReply "ignored" 200)
        | some oid =>
          if oid = "" then (s, .webhookReply "ignored" 200)
          else
            match load_order s.orders oid with
            | none => (s, .webhookReply "ignored" 200)
            | some o =>
              if ¬ o.paid then
                let o1 := { o with paid := true }
                match coordsOf cfg o1 with
                | none => (s, .serverError)
                | some _pt =>
                  match SIZE_OPTIONS.lookup o1.size with
                  | none => (s, .serverError)
                  | some _fs =>
                    let poster_filename := mkPosterFilename o1.city o1.theme ts
                    let s1 := { s with posters := poster_filename :: s.posters }
                    let o2 := { o1 with poster_filename := poster_filename }
                    let s2 := { s1 with orders := save_order s1.orders o2 }
                    let sent := if o2.email.isSome then send_email cfg s2 o2 else false
                    let s3 := if sent then { s2 with emails := o2.session_id :: s2.emails } else s2
                    (s3, .webhookReply "success" 200)
              else (s, .webhookReply "success" 200)
      else (s, .webhookReply "success" 200)

/-- The `/preview-image/<session_id>/<theme_name>` (`app.py` lines 454-489). -/
def preview_image (cfg : Config) (s : AppState) (sid theme_name : String) :
    AppState × Resp :=
  match load_order s.orders sid with
  | none => (s, .abort 404)
  | some o =>
    if ¬ (cfg.availableThemes.contains theme_name) then (s, .abort 400)
    else
      let preview_filename := "preview_" ++ sid ++ "_" ++ theme_name ++ ".png"
      if s.previews.contains preview_filename then (s, .file preview_filename)
      else
        match coordsOf cfg o with
        | none => (s, .serverError)
        | some _pt =>
          match SIZE_OPTIONS.lookup o.size with
          | none => (s, .serverError)
          | some _fs =>
            ({ s with previews := preview_filename :: s.previews }, .file preview_filename)

/-- The `/download/<session_id>/<filename>` (`app.py` lines 656-672);
read-only, so only the response is returned. -/
def download (s : AppState) (sid filename : String) : Resp :=
  match load_order s.orders sid with
  | none => .abort 404
  | some o =>
    if ¬ o.paid then .abort 403
    else if filename = o.poster_filename ∧ s.posters.contains o.poster_filename then
      .file filename
    else if filename = o.invoice_filename ∧ (s.invoices o.invoice_filename).isSome then
      .file filename
    else .abort 404

/-! ## Request traces

A `Label` is one HTTP request with its inputs; `applyLabel` runs it.
The `create` label carries the `uuid4().hex` session id, constrained to
be fresh (a uuid collides with an existing order or invoice file with
negligible probability, which the model rules out).  Read-only routes
(`/`, `/examples`, `/preview`, `/cancel`, `/download`) never write, and
are represented by the `readonly` label. -/

inductive Label where
  | create (f : CreateForm) (sid ts : String)
  | purchase (sid : String) (formTheme : Option String)
  | generateFinal (sid ts : String)
  | successReq (orderId : Option String) (ts : String)
  | webhook (ev : Option StripeEvent) (ts : String)
  | previewImage (sid theme_name : String)
  | readonly

/-- Execute one labelled request.  `none` marks the impossible uuid
collision on `create`. -/
def applyLabel (cfg : Config) (l : Label) (s : AppState) : Option AppState :=
  match l with
  | .create f sid ts =>
    if (s.orders sid).isNone ∧ (s.invoices (sid ++ ".json")).isNone then
      some (create cfg s f sid ts).1
    else none
  | .purchase sid th => some (purchase cfg s sid th).1
  | .generateFinal sid ts => some (generate_final cfg s sid ts).1
  | .successReq oid ts => some (successRoute cfg s oid ts).1
  | .webhook ev ts => some (stripe_webhook cfg s ev ts).1
  | .previewImage sid th => some (preview_image cfg s sid th).1
  | .readonly => some s

/-- Run a request trace. -/
def runTrace (cfg : Config) : List Label → AppState → Option AppState
  | [], s => some s
  | l :: ls, s =>
    match applyLabel cfg l s with
    | none => none
    | some s1 => runTrace cfg ls s1

/-- Does this request take the purchase/payment step for order `sid`
(a `POST /purchase/<sid>`, or a verified `checkout.session.completed`
webhook event for `sid`)? -/
def isPaymentStepFor (sid : String) : Label → Bool
  | .purchase s _ => s == sid
  | .webhook (some e) _ => e.type == "checkout.session.completed" && e.orderId == some sid
  | _ => false

/-- Does this request create order `sid`? -/
def isCreateFor (sid : String) : Label → Bool
  | .create _ s _ => s == sid
  | _ => false

/-- Is this a `/create` request at all? -/
def isCreateLabel : Label → Bool
  | .create _ _ _ => true
  | _ => false

/-! ## Concrete fixtures used by witnesses and counterexamples -/

/-- The round-trip property exactly as the claim states it. -/
def orderRoundTripExact : Prop :=
  ∀ (store : Store) (o : Order),
    load_order (save_order store o) o.session_id = some o
    ∧ ∀ k, k ≠ o.session_id → save_order store o k = store k

/-- A concrete order whose coordinates are a Python tuple. -/
def orderTup : Order :=
  { session_id := "a", city := "Tokyo", country := "Japan", theme := "noir"
    distance := 10000, size := "12x16", dpi := 300, email := none
    poster_filename := "", invoice_filename := "a.json", created_at := "t0"
    paid := false, coordinates := some (.tup 35 139) }

/-- A concrete order whose coordinates were reloaded (a list). -/
def orderLst : Order := { orderTup with coordinates := some (.lst 35 139) }

/-- A geocoder oracle that knows one city. -/
def oracleW : String → Option Location :=
  fun q => if q = "Tokyo, Japan" then some ⟨35, 139, "Tokyo, Japan"⟩ else none

/-- The empty geocode module state. -/
def emptyGeo : GeoState := { cache := fun _ => none, lastTime := 0 }

/-- The module state after one successful Tokyo lookup. -/
def geoAfterTokyo : GeoState := (get_coordinates oracleW 1 emptyGeo "Tokyo" "Japan").state

/-- A configuration whose geocoder is the real `get_coordinates` on the
`oracleW` backend. -/
def cfgGeo : Config :=
  { priceCents := 2900, priceCurrency := "usd", availableThemes := ["noir"]
    stripeReady := false, webhookSecretConfigured := true, emailSentFlag := false
    smtpOk := false, emailFormatOk := fun _ => true
    geocode := fun ci co => (get_coordinates oracleW 1 emptyGeo ci co).result
    stripeCheckoutUrl := fun _ => "stripe" }

/-- A create form for a city the oracle does not know. -/
def formAtlantis : CreateForm :=
  { city := "Atlantis", country := "Nowhere", theme := some "noir"
    distance := some 10000, dpi := some 300, size := some "12x16", email := "" }

/-- An invoice document for the paid-order fixture. -/
def invoicePaid : Invoice :=
  { invoice_id := "abc", created_at := "t0", city := "Tokyo", country := "Japan"
    theme := "noir", distance_meters := 10000, size := "12x16", dpi := 300
    price_cents := 2900, currency := "usd", email := "" }

/-- A stored document for an order that has already been paid and
rendered. -/
def docPaid : OrderDoc :=
  { session_id := "abc", city := "Tokyo", country := "Japan", theme := "noir"
    distance := 10000, size := "12x16", dpi := 300, email := none
    poster_filename := "tokyo_noir_t1.png", invoice_filename := "abc.json"
    created_at := "t0", paid := true, coordinates := some (35, 139) }

/-- An application state holding the paid order, its poster file and
its invoice file. -/
def statePaid : AppState :=
  { orders := fun k => if k = "abc" then some docPaid else none
    invoices := fun k => if k = "abc.json" then some invoicePaid else none
    posters := ["tokyo_noir_t1.png"], previews := [], emails := [] }

/-- The same state with the order not yet paid. -/
def stateUnpaid : AppState :=
  { statePaid with
    orders := fun k => if k = "abc" then some { docPaid with paid := false } else none }

/-- A completed-checkout event for the paid order. -/
def eventPaid : StripeEvent :=
  { type := "checkout.session.completed", orderId := some "abc" }

/-- A create form the `cfgGeo` geocoder accepts. -/
def formTokyo : CreateForm :=
  { city := "Tokyo", country := "Japan", theme := some "noir"
    distance := some 10000, dpi := some 300, size := some "12x16", email := "" }

/-- The state after one successful `/create` with session id `"a"`. -/
def stateW : AppState := (create cfgGeo initState formTokyo "a" "t0").1

/-- The order document `/create` writes in `stateW`. -/
def docCreated : OrderDoc :=
  { session_id := "a", city := "Tokyo", country := "Japan", theme := "noir"
    distance := 10000, size := "12x16", dpi := 300, email := none
    poster_filename := "", invoice_filename := "a.json", created_at := "t0"
    paid := false, coordinates := some (35, 139) }

/-- The invoice document `/create` writes in `stateW`. -/
def invCreated : Invoice :=
  { invoice_id := "a", created_at := "t0", city := "Tokyo", country := "Japan"
    theme := "noir", distance_meters := 10000, size := "12x16", dpi := 300
    price_cents := 2900, currency := "usd", email := "" }

/-- A request trace that renders the final poster with no purchase and
no payment step: `/create` followed directly by `GET /generate-final`. -/
def cexTrace : List Label :=
  [Label.create formTokyo "a" "t0", Label.generateFinal "a" "t1"]

/-- The state `cexTrace` reaches. -/
def stateCex : AppState := (generate_final cfgGeo stateW "a" "t1").1

/-- The final-rendered order document in `stateCex`. -/
def docCex : OrderDoc :=
  { session_id := "a", city := "Tokyo", country := "Japan", theme := "noir"
    distance := 10000, size := "12x16", dpi := 300, email := none
    poster_filename := "tokyo_noir_t1.png", invoice_filename := "a.json"
    created_at := "t0", paid := true, coordinates := some (35, 139) }

/-- C1 exactly as the claim states it: a watermark-free final render
(`paid=True`, non-empty `poster_filename`) happens for an order only
when the request trace contains the purchase or payment step for it. -/
def orderFlowPaymentGated : Prop :=
  ∀ (cfg : Config) (tr : List Label) (s : AppState),
    runTrace cfg tr initState = some s →
    ∀ sid doc, s.orders sid = some doc → doc.paid = true → doc.poster_filename ≠ "" →
      ∃ l, l ∈ tr ∧ isPaymentStepFor sid l = true

/-! ## Theorems -/

/-- One loop iteration appends exactly the bucket colour and width of
that edge. -/
theorem edgeStep_eq (theme : RoadTheme) (acc : List String × List ℚ) (e : Edge) :
    edgeStep theme acc e = (acc.1 ++ [edgeColorSpec theme e], acc.2 ++ [edgeWidthSpec e]) := by
  unfold edgeStep edgeColorSpec edgeWidthSpec
  simp only [List.contains_cons, List.contains_nil, Bool.or_false, Bool.or_eq_true,
    beq_iff_eq]
  split_ifs <;> simp_all

/-- The fold from any accumulator appends the mapped buckets. -/
theorem edge_fold_eq (theme : RoadTheme) :
    ∀ (G : List Edge) (acc : List String × List ℚ),
      G.foldl (edgeStep theme) acc
        = (acc.1 ++ G.map (edgeColorSpec theme), acc.2 ++ G.map edgeWidthSpec) := by
  intro G
  induction G with
  | nil => intro acc; simp
  | cons e G ih =>
    intro acc
    simp only [List.foldl_cons, List.map_cons, edgeStep_eq, ih]
    simp

/-- C7: road bucketing is a total straightforward mapping: the loop
returns one colour and one width per edge (so both lists have the
length of the edge list), and each edge's resolved highway tag (first
element when a list, `unclassified` when absent) lands in exactly the
bucket the claim enumerates. -/
theorem road_bucketing_total (theme : RoadTheme) (G : List Edge) :
    (get_edge_colors_and_widths_by_type theme G).1.length = G.length
    ∧ (get_edge_colors_and_widths_by_type theme G).2.length = G.length
    ∧ get_edge_colors_and_widths_by_type theme G
        = (G.map (edgeColorSpec theme), G.map edgeWidthSpec) := by
  have h := edge_fold_eq theme G ([], [])
  unfold get_edge_colors_and_widths_by_type
  rw [h]
  simp

/-- C9: the fan-out/join over the thread pool equals fetching the three
layers sequentially with the same `(point, dist)`, and the water/parks
wrappers turn an underlying fetch failure into `None` instead of an
exception. -/
theorem concurrent_fetch_equals_sequential {P G F : Type}
    (graph_from_point : P → ℕ → Except String G)
    (features_from_point : P → List (String × String) → ℕ → Except String F)
    (point : P) (dist : ℕ) :
    create_poster_fetch graph_from_point features_from_point point dist
      = sequential_fetch_spec graph_from_point features_from_point point dist
    ∧ (∀ e, features_from_point point waterTags dist = .error e →
        _fetch_water_features features_from_point point dist = none)
    ∧ (∀ e, features_from_point point parkTags dist = .error e →
        _fetch_parks features_from_point point dist = none) := by
  refine ⟨rfl, ?_, ?_⟩
  · intro e he
    unfold _fetch_water_features
    rw [he]
  · intro e he
    unfold _fetch_parks
    rw [he]

/-- Witness for C9 at a concrete failing features oracle. -/
theorem concurrent_fetch_equals_sequential_witness :
    @_fetch_water_features ℕ ℕ (fun _ _ _ => Except.error "boom") 0 5 = none
    ∧ @_fetch_parks ℕ ℕ (fun _ _ _ => Except.error "boom") 0 5 = none :=
  ⟨(concurrent_fetch_equals_sequential (fun (_ : ℕ) _ => Except.ok 0)
      (fun _ _ _ => Except.error "boom") 0 5).2.1 "boom" rfl,
   (concurrent_fetch_equals_sequential (fun (_ : ℕ) _ => Except.ok 0)
      (fun _ _ _ => Except.error "boom") 0 5).2.2 "boom" rfl⟩

/-- C3 counterexample: JSON round-tripping turns the coordinates tuple
into a list, and the dataclass `==` distinguishes the two, so the
reloaded order is not equal to the saved one. -/
theorem order_roundtrip_not_exact : ¬ orderRoundTripExact := by
  intro h
  have h1 := (h (fun _ => none) orderTup).1
  exact absurd h1 (by decide)

/-- C3 (amended): after `save_order`, `load_order` succeeds and returns
the order with every field intact except `coordinates`, which comes
back as a Python list with the same numeric contents (so the reload is
exactly equal whenever `coordinates` is `None` or already a list), and
saving touches no other order's document. -/
theorem order_roundtrip_listified (store : Store) (o : Order) :
    load_order (save_order store o) o.session_id = some (listifyOrder o)
    ∧ ((listifyOrder o).session_id = o.session_id ∧ (listifyOrder o).city = o.city
       ∧ (listifyOrder o).country = o.country ∧ (listifyOrder o).theme = o.theme
       ∧ (listifyOrder o).distance = o.distance ∧ (listifyOrder o).size = o.size
       ∧ (listifyOrder o).dpi = o.dpi ∧ (listifyOrder o).email = o.email
       ∧ (listifyOrder o).poster_filename = o.poster_filename
       ∧ (listifyOrder o).invoice_filename = o.invoice_filename
       ∧ (listifyOrder o).created_at = o.created_at ∧ (listifyOrder o).paid = o.paid
       ∧ coordsVal (listifyOrder o).coordinates = coordsVal o.coordinates)
    ∧ (o.coordinates = none → listifyOrder o = o)
    ∧ (∀ a b, o.coordinates = some (.lst a b) → listifyOrder o = o)
    ∧ (∀ k, k ≠ o.session_id → save_order store o k = store k) := by
  refine ⟨?_, ⟨rfl, rfl, rfl, rfl, rfl, rfl, rfl, rfl, rfl, rfl, rfl, rfl, ?_⟩, ?_, ?_, ?_⟩
  · unfold load_order save_order
    simp [listifyOrder]
  · rcases o with ⟨_, _, _, _, _, _, _, _, _, _, _, _, oc⟩
    rcases oc with _ | c
    · rfl
    · rcases c <;> rfl
  · intro hnone
    rcases o with ⟨_, _, _, _, _, _, _, _, _, _, _, _, oc⟩
    cases hnone
    rfl
  · intro a b hlst
    rcases o with ⟨_, _, _, _, _, _, _, _, _, _, _, _, oc⟩
    cases hlst
    rfl
  · intro k hk
    unfold save_order
    simp [hk]

/-- Witness for the amended C3 at concrete inputs. -/
theorem order_roundtrip_listified_witness :
    listifyOrder orderLst = orderLst
    ∧ save_order (fun _ => none) orderLst "b" = (fun _ => none : Store) "b" :=
  ⟨(order_roundtrip_listified (fun _ => none) orderLst).2.2.2.1 35 139 rfl,
   (order_roundtrip_listified (fun _ => none) orderLst).2.2.2.2 "b" (by decide)⟩

/-- C8: the geocode cache only grows: every cached entry survives every
call unchanged, a successful external lookup on a miss inserts its
result, and a call whose key is cached returns the cached coordinates
without invoking the external geocoder (and without touching the
state). -/
theorem geocode_cache_unbounded (geocode : String → Option Location) (now : ℚ)
    (st : GeoState) (city country : String) :
    (∀ k v, st.cache k = some v →
      (get_coordinates geocode now st city country).state.cache k = some v)
    ∧ (∀ loc, st.cache (geoKey city country) = none →
        geocode (geoQuery city country) = some loc →
          (get_coordinates geocode now st city country).state.cache (geoKey city country)
            = some (loc.latitude, loc.longitude, loc.address)
          ∧ (get_coordinates geocode now st city country).result
            = .ok (some (loc.latitude, loc.longitude)))
    ∧ (∀ lat lon addr, st.cache (geoKey city country) = some (lat, lon, addr) →
        (get_coordinates geocode now st city country).result = .ok (some (lat, lon))
        ∧ (get_coordinates geocode now st city country).geocoderCalled = false
        ∧ (get_coordinates geocode now st city country).state = st) := by
  refine ⟨?_, ?_, ?_⟩
  · intro k v hkv
    unfold get_coordinates
    rcases hc : st.cache (geoKey city country) with _ | ⟨lat, lon, addr⟩
    · simp only [hc]
      rcases hg : geocode (geoQuery city country) with _ | loc
      · simp only [hg]
        exact hkv
      · simp only [hg]
        by_cases hk : k = geoKey city country
        · subst hk
          rw [hkv] at hc
          cases hc
        · simpa [hk] using hkv
    · simp only [hc]
      exact hkv
  · intro loc hmiss hhit
    unfold get_coordinates
    simp [hmiss, hhit]
  · intro lat lon addr hcached
    unfold get_coordinates
    simp [hcached]

/-- Witness for C8: a concrete miss-then-hit pair of calls. -/
theorem geocode_cache_unbounded_witness :
    ((get_coordinates oracleW 1 emptyGeo "Tokyo" "Japan").state.cache (geoKey "Tokyo" "Japan")
        = some (35, 139, "Tokyo, Japan")
      ∧ (get_coordinates oracleW 1 emptyGeo "Tokyo" "Japan").result = .ok (some (35, 139)))
    ∧ ((get_coordinates oracleW 2 geoAfterTokyo "Tokyo" "Japan").result = .ok (some (35, 139))
        ∧ (get_coordinates oracleW 2 geoAfterTokyo "Tokyo" "Japan").geocoderCalled = false
        ∧ (get_coordinates oracleW 2 geoAfterTokyo "Tokyo" "Japan").state = geoAfterTokyo) :=
  ⟨(geocode_cache_unbounded oracleW 1 emptyGeo "Tokyo" "Japan").2.1
      ⟨35, 139, "Tokyo, Japan"⟩ (by decide) (by decide),
   (geocode_cache_unbounded oracleW 2 geoAfterTokyo "Tokyo" "Japan").2.2
      35 139 "Tokyo, Japan" (by decide)⟩

/-- The `get_coordinates` has no code path returning `None`: both `return`
statements return a pair and the remaining path raises `ValueError`. -/
theorem get_coordinates_never_none (geocode : String → Option Location) (now : ℚ)
    (st : GeoState) (city country : String) :
    (get_coordinates geocode now st city country).result ≠ Except.ok none := by
  unfold get_coordinates
  rcases hc : st.cache (geoKey city country) with _ | ⟨lat, lon, addr⟩
  · simp only [hc]
    rcases hg : geocode (geoQuery city country) with _ | loc <;> simp [hg]
  · simp [hc]

/-- Every `/create` response is an exception, the success redirect, or
a validation error page; the city-not-found message can only arise from
the geocoder returning a dynamic `None`. -/
theorem create_resp_classified (cfg : Config) (s : AppState) (f : CreateForm) (sid ts : String) :
    (create cfg s f sid ts).2 = .serverError
    ∨ (create cfg s f sid ts).2 = .redirect ("/preview/" ++ sid)
    ∨ ∃ m, (create cfg s f sid ts).2 = .indexError m
        ∧ (m ≠ cityNotFoundMsg
           ∨ cfg.geocode (pyStrip f.city) (pyStrip f.country) = .ok none) := by
  simp only [create]
  repeat' split
  all_goals
    first
      | exact .inl rfl
      | exact .inr (.inl rfl)
      | (refine .inr (.inr ⟨_, rfl, .inl ?_⟩); decide)
      | exact .inr (.inr ⟨_, rfl, .inr (by assumption)⟩)

/-- C10: `get_coordinates` either returns a coordinate pair or raises
`ValueError` when the geocoder finds nothing; consequently when
`/create`'s geocode calls are backed by `get_coordinates`, its
`coords is None` branch (the friendly city-not-found page) is
unreachable, and a failed lookup surfaces as the `ValueError`
exception instead. -/
theorem create_city_not_found_unreachable (geocode : String → Option Location) (now : ℚ)
    (st : GeoState) (city country : String) :
    (get_coordinates geocode now st city country).result ≠ Except.ok none
    ∧ (∀ (cfg : Config) (s : AppState) (f : CreateForm) (sid ts : String),
        cfg.geocode = (fun ci co => (get_coordinates geocode now st ci co).result) →
          (create cfg s f sid ts).2 ≠ .indexError cityNotFoundMsg)
    ∧ (st.cache (geoKey city country) = none → geocode (geoQuery city country) = none →
        (get_coordinates geocode now st city country).result
          = .error (geoErrMsg city country)) := by
  refine ⟨get_coordinates_never_none geocode now st city country, ?_, ?_⟩
  · intro cfg s f sid ts hcfg hbad
    rcases create_resp_classified cfg s f sid ts with h | h | ⟨m, hm, hrest⟩
    · rw [hbad] at h
      exact Resp.noConfusion h
    · rw [hbad] at h
      exact Resp.noConfusion h
    · have hmeq : m = cityNotFoundMsg := by
        rw [hbad] at hm
        exact (Resp.indexError.inj hm).symm
      rcases hrest with hne | hgeo
      · exact hne hmeq
      · rw [hcfg] at hgeo
        exact get_coordinates_never_none geocode now st _ _ hgeo
  · intro hmiss hnone
    unfold get_coordinates
    simp [hmiss, hnone]

/-- Witness for C10: a concrete failed lookup never reaches the
friendly branch and raises `ValueError` instead. -/
theorem create_city_not_found_unreachable_witness :
    (create cfgGeo initState formAtlantis "x" "t0").2 ≠ .indexError cityNotFoundMsg
    ∧ (get_coordinates oracleW 1 emptyGeo "Atlantis" "Nowhere").result
        = .error (geoErrMsg "Atlantis" "Nowhere") :=
  ⟨(create_city_not_found_unreachable oracleW 1 emptyGeo "Atlantis" "Nowhere").2.1
      cfgGeo initState formAtlantis "x" "t0" rfl,
   (create_city_not_found_unreachable oracleW 1 emptyGeo "Atlantis" "Nowhere").2.2
      (by decide) (by decide)⟩

/-- C4: the Stripe webhook is idempotent for an already-paid order: a
verified `checkout.session.completed` event whose `order_id` names a
stored order with `paid=True` leaves the whole state unchanged (no
render, no save, no email) and still replies `success` with HTTP 200. -/
theorem webhook_idempotent_on_paid (cfg : Config) (s : AppState) (e : StripeEvent)
    (oid : String) (o : Order) (ts : String)
    (hsec : cfg.webhookSecretConfigured = true)
    (htype : e.type = "checkout.session.completed")
    (hoid : e.orderId = some oid) (hne : oid ≠ "")
    (hload : load_order s.orders oid = some o) (hpaid : o.paid = true) :
    stripe_webhook cfg s (some e) ts = (s, .webhookReply "success" 200) := by
  unfold stripe_webhook
  simp [hsec, htype, hoid, hne, hload, hpaid]

/-- Witness for C4 at the concrete paid-order state. -/
theorem webhook_idempotent_on_paid_witness :
    stripe_webhook cfgGeo statePaid (some eventPaid) "t9"
      = (statePaid, .webhookReply "success" 200) :=
  webhook_idempotent_on_paid cfgGeo statePaid eventPaid "abc" (docToOrder docPaid) "t9"
    rfl rfl rfl (by decide) rfl rfl

/-- C5: `/download` is payment-gated and scoped to the order's own two
artifacts: an unknown session id aborts 404; an unpaid order aborts 403
for every filename; for a paid order a file is served exactly when the
requested name is the order's poster or invoice filename and that file
exists, and every other request aborts 404. -/
theorem download_payment_gated (s : AppState) (sid fn : String) :
    (load_order s.orders sid = none → download s sid fn = .abort 404)
    ∧ (∀ o, load_order s.orders sid = some o →
        ((o.paid = false → download s sid fn = .abort 403)
         ∧ (o.paid = true →
             ((download s sid fn = .file fn ↔
                ((fn = o.poster_filename ∧ s.posters.contains o.poster_filename = true)
                 ∨ (fn = o.invoice_filename
                    ∧ (s.invoices o.invoice_filename).isSome = true)))
              ∧ (¬ ((fn = o.poster_filename ∧ s.posters.contains o.poster_filename = true)
                    ∨ (fn = o.invoice_filename
                       ∧ (s.invoices o.invoice_filename).isSome = true)) →
                  download s sid fn = .abort 404))))) := by
  constructor
  · intro h
    unfold download
    rw [h]
  · intro o hload
    constructor
    · intro hpaid
      unfold download
      rw [hload]
      dsimp only
      rw [hpaid]
      simp
    · intro hpaid
      have hred : download s sid fn
          = (if fn = o.poster_filename ∧ s.posters.contains o.poster_filename = true then
               Resp.file fn
             else if fn = o.invoice_filename
                 ∧ (s.invoices o.invoice_filename).isSome = true then
               Resp.file fn
             else Resp.abort 404) := by
        unfold download
        rw [hload]
        dsimp only
        rw [hpaid]
        simp only [eq_self_iff_true, not_true, if_false]
      rw [hred]
      constructor
      · by_cases hA : fn = o.poster_filename ∧ s.posters.contains o.poster_filename = true
        · rw [if_pos hA]
          exact ⟨fun _ => .inl hA, fun _ => rfl⟩
        · rw [if_neg hA]
          by_cases hB : fn = o.invoice_filename ∧ (s.invoices o.invoice_filename).isSome = true
          · rw [if_pos hB]
            exact ⟨fun _ => .inr hB, fun _ => rfl⟩
          · rw [if_neg hB]
            exact ⟨fun h => Resp.noConfusion h, fun hor => (not_or.mpr ⟨hA, hB⟩ hor).elim⟩
      · intro hnone
        rw [not_or] at hnone
        rw [if_neg hnone.1, if_neg hnone.2]

/-- Witness for C5: the four behaviours at concrete states. -/
theorem download_payment_gated_witness :
    download stateUnpaid "abc" "tokyo_noir_t1.png" = .abort 403
    ∧ download statePaid "abc" "tokyo_noir_t1.png" = .file "tokyo_noir_t1.png"
    ∧ download statePaid "abc" "evil.png" = .abort 404
    ∧ download statePaid "zzz" "x" = .abort 404 :=
  ⟨((download_payment_gated stateUnpaid "abc" "tokyo_noir_t1.png").2
      (docToOrder { docPaid with paid := false }) rfl).1 rfl,
   (((download_payment_gated statePaid "abc" "tokyo_noir_t1.png").2
      (docToOrder docPaid) rfl).2 rfl).1.mpr (.inl ⟨rfl, by decide⟩),
   (((download_payment_gated statePaid "abc" "evil.png").2
      (docToOrder docPaid) rfl).2 rfl).2 (by decide),
   (download_payment_gated statePaid "zzz" "x").1 rfl⟩

/-! ## Request-trace invariants (C1, C2, C6) -/

/-- A generated poster filename is never the empty string (it ends in
`.png`). -/
theorem mkPosterFilename_ne_empty (city theme ts : String) :
    mkPosterFilename city theme ts ≠ "" := by
  intro h
  have hlen := congrArg String.length h
  simp [mkPosterFilename, String.length_append] at hlen
  exact absurd hlen.2 (by decide)

/-- A lookup in the store after `save_order` either sees an old
document or the newly keyed one. -/
theorem save_order_cases (st : Store) (o1 : Order) (k : String) (doc : OrderDoc)
    (h : save_order st o1 k = some doc) :
    st k = some doc ∨ (k = o1.session_id ∧ doc = orderToDoc o1) := by
  unfold save_order at h
  by_cases hk : k = o1.session_id
  · rw [if_pos hk] at h
    exact .inr ⟨hk, (Option.some.inj h).symm⟩
  · rw [if_neg hk] at h
    exact .inl h

/-- A successful `load_order` comes from a stored document. -/
theorem load_order_eq_some (st : Store) (sid : String) (o : Order)
    (h : load_order st sid = some o) :
    ∃ d, st sid = some d ∧ o = docToOrder d := by
  unfold load_order at h
  rcases hd : st sid with _ | d
  · rw [hd] at h
    cases h
  · rw [hd] at h
    exact ⟨d, rfl, (Option.some.inj h).symm⟩

/-- State shape of `/purchase`: invoices untouched; the only possible
order write re-saves the loaded order with a new theme, preserving
`paid` and `poster_filename`. -/
theorem purchase_shape (cfg : Config) (s : AppState) (sid : String) (th : Option String) :
    ((purchase cfg s sid th).1).invoices = s.invoices
    ∧ (∀ k doc, ((purchase cfg s sid th).1).orders k = some doc →
        s.orders k = some doc
        ∨ ∃ o, load_order s.orders sid = some o ∧ k = o.session_id
            ∧ doc.session_id = o.session_id ∧ doc.paid = o.paid
            ∧ doc.poster_filename = o.poster_filename) := by
  unfold purchase
  rcases hl : load_order s.orders sid with _ | o
  · simp only [hl]
    exact ⟨trivial, fun k doc h => .inl h⟩
  · simp only [hl]
    by_cases hth : th.getD o.theme ≠ o.theme
    · rw [if_pos hth, if_pos hth]
      refine ⟨rfl, ?_⟩
      intro k doc h
      rcases save_order_cases _ _ _ _ h with h' | ⟨hk, hdoc⟩
      · exact .inl h'
      · exact .inr ⟨o, rfl, hk, by subst hdoc; exact ⟨rfl, rfl, rfl⟩⟩
    · rw [if_neg hth]
      exact ⟨rfl, fun k doc h => .inl h⟩

/-- State shape of `/generate-final`: invoices untouched; the only
possible order write marks the loaded order paid with the freshly
rendered poster filename. -/
theorem generate_final_shape (cfg : Config) (s : AppState) (sid ts : String) :
    ((generate_final cfg s sid ts).1).invoices = s.invoices
    ∧ (∀ k doc, ((generate_final cfg s sid ts).1).orders k = some doc →
        s.orders k = some doc
        ∨ ∃ o, load_order s.orders sid = some o ∧ k = o.session_id
            ∧ doc.session_id = o.session_id ∧ doc.paid = true
            ∧ doc.poster_filename = mkPosterFilename o.city o.theme ts) := by
  unfold generate_final
  rcases hl : load_order s.orders sid with _ | o
  · simp only [hl]
    exact ⟨trivial, fun k doc h => .inl h⟩
  · simp only [hl]
    rcases hco : coordsOf cfg o with _ | pt
    · simp only [hco]
      exact ⟨trivial, fun k doc h => .inl h⟩
    · simp only [hco]
      rcases hsz : SIZE_OPTIONS.lookup o.size with _ | fs
      · simp only [hsz]
        exact ⟨trivial, fun k doc h => .inl h⟩
      · simp only [hsz]
        constructor
        · simp [apply_ite AppState.invoices, ite_self]
        · intro k doc h
          repeat' split at h
          all_goals
            rcases save_order_cases _ _ _ _ h with h' | ⟨hk, hdoc⟩
          all_goals
            first
              | exact .inl h'
              | exact .inr ⟨o, rfl, hk, by subst hdoc; exact ⟨rfl, rfl, rfl⟩⟩

/-- State shape of `/success`: invoices untouched; the only possible
order write marks the loaded order paid with a fresh poster filename. -/
theorem successRoute_shape (cfg : Config) (s : AppState) (oid : Option String) (ts : String) :
    ((successRoute cfg s oid ts).1).invoices = s.invoices
    ∧ (∀ k doc, ((successRoute cfg s oid ts).1).orders k = some doc →
        s.orders k = some doc
        ∨ ∃ sid o, load_order s.orders sid = some o ∧ k = o.session_id
            ∧ doc.session_id = o.session_id ∧ doc.paid = true
            ∧ doc.poster_filename = mkPosterFilename o.city o.theme ts) := by
  unfold successRoute
  rcases oid with _ | oidv
  · exact ⟨rfl, fun k doc h => .inl h⟩
  · dsimp only
    by_cases hempty : oidv = ""
    · rw [if_pos hempty]
      exact ⟨rfl, fun k doc h => .inl h⟩
    · rw [if_neg hempty]
      rcases hl : load_order s.orders oidv with _ | o
      · simp only [hl]
        exact ⟨by trivial, fun k doc h => .inl h⟩
      · simp only [hl]
        by_cases hpaid : ¬ o.paid = true
        · rw [if_pos hpaid]
          exact ⟨rfl, fun k doc h => .inl h⟩
        · rw [if_neg hpaid]
          by_cases hpf : o.poster_filename = ""
          · rw [if_pos hpf]
            rcases hco : coordsOf cfg o with _ | pt
            · simp only [hco]
              exact ⟨by trivial, fun k doc h => .inl h⟩
            · simp only [hco]
              rcases hsz : SIZE_OPTIONS.lookup o.size with _ | fs
              · simp only [hsz]
                exact ⟨by trivial, fun k doc h => .inl h⟩
              · simp only [hsz]
                dsimp only
                constructor
                · simp [apply_ite AppState.invoices, ite_self]
                · intro k doc h
                  repeat' split at h
                  all_goals
                    rcases save_order_cases _ _ _ _ h with h' | ⟨hk, hdoc⟩
                  all_goals
                    first
                      | exact .inl h'
                      | exact .inr ⟨oidv, o, hl, hk, by subst hdoc; exact ⟨rfl, rfl, rfl⟩⟩
          · rw [if_neg hpf]
            dsimp only
            constructor
            · simp [apply_ite AppState.invoices, ite_self]
            · intro k doc h
              repeat' split at h
              all_goals exact .inl h

/-- State shape of the Stripe webhook: invoices untouched; the only
possible order write marks the loaded order paid with a fresh poster
filename. -/
theorem stripe_webhook_shape (cfg : Config) (s : AppState) (ev : Option StripeEvent)
    (ts : String) :
    ((stripe_webhook cfg s ev ts).1).invoices = s.invoices
    ∧ (∀ k doc, ((stripe_webhook cfg s ev ts).1).orders k = some doc →
        s.orders k = some doc
        ∨ ∃ sid o, load_order s.orders sid = some o ∧ k = o.session_id
            ∧ doc.session_id = o.session_id ∧ doc.paid = true
            ∧ (doc.poster_filename
                = mkPosterFilename o.city o.theme ts ∨ doc.poster_filename ≠ "")) := by
  unfold stripe_webhook
  by_cases hsec : ¬ cfg.webhookSecretConfigured = true
  · rw [if_pos hsec]
    exact ⟨rfl, fun k doc h => .inl h⟩
  · rw [if_neg hsec]
    rcases ev with _ | e
    · exact ⟨rfl, fun k doc h => .inl h⟩
    · dsimp only
      by_cases htype : e.type = "checkout.session.completed"
      · rw [if_pos htype]
        rcases hoid : e.orderId with _ | oidv
        · simp only [hoid]
          exact ⟨by trivial, fun k doc h => .inl h⟩
        · simp only [hoid]
          by_cases hempty : oidv = ""
          · rw [if_pos hempty]
            exact ⟨by trivial, fun k doc h => .inl h⟩
          · rw [if_neg hempty]
            rcases hl : load_order s.orders oidv with _ | o
            · simp only [hl]
              exact ⟨by trivial, fun k doc h => .inl h⟩
            · simp only [hl]
              by_cases hpaid : ¬ o.paid = true
              · rw [if_pos hpaid]
                rcases hco : coordsOf cfg { o with paid := true } with _ | pt
                · simp only [hco]
                  exact ⟨by trivial, fun k doc h => .inl h⟩
                · simp only [hco]
                  rcases hsz : SIZE_OPTIONS.lookup o.size with _ | fs
                  · simp only [hsz]
                    exact ⟨by trivial, fun k doc h => .inl h⟩
                  · simp only [hsz]
                    constructor
                    · simp [apply_ite AppState.invoices, ite_self]
                    · intro k doc h
                      repeat' split at h
                      all_goals
                        rcases save_order_cases _ _ _ _ h with h' | ⟨hk, hdoc⟩
                      all_goals
                        first
                          | exact .inl h'
                          | exact .inr ⟨oidv, o, hl, hk,
                              by subst hdoc; exact ⟨rfl, rfl, .inl rfl⟩⟩
              · rw [if_neg hpaid]
                exact ⟨rfl, fun k doc h => .inl h⟩
      · rw [if_neg htype]
        exact ⟨rfl, fun k doc h => .inl h⟩

/-- State shape of `/preview-image`: only preview files change. -/
theorem preview_image_shape (cfg : Config) (s : AppState) (sid th : String) :
    ((preview_image cfg s sid th).1).invoices = s.invoices
    ∧ ((preview_image cfg s sid th).1).orders = s.orders := by
  unfold preview_image
  rcases hl : load_order s.orders sid with _ | o
  · simp only [hl]
    exact ⟨by trivial, by trivial⟩
  · simp only [hl]
    by_cases hth : ¬ cfg.availableThemes.contains th = true
    · rw [if_pos hth]
      exact ⟨rfl, rfl⟩
    · rw [if_neg hth]
      by_cases hprev : s.previews.contains ("preview_" ++ sid ++ "_" ++ th ++ ".png") = true
      · rw [if_pos hprev]
        exact ⟨rfl, rfl⟩
      · rw [if_neg hprev]
        rcases hco : coordsOf cfg o with _ | pt
        · simp only [hco]
          exact ⟨by trivial, by trivial⟩
        · simp only [hco]
          rcases hsz : SIZE_OPTIONS.lookup o.size with _ | fs
          · simp only [hsz]
            exact ⟨by trivial, by trivial⟩
          · simp only [hsz]
            exact ⟨by trivial, by trivial⟩

/-- State shape of `/create`: the only order write is an unpaid,
posterless document keyed by the fresh session id, and the only
invoice write is the snapshot at `sid.json`. -/
theorem create_shape (cfg : Config) (s : AppState) (f : CreateForm) (sid ts : String) :
    (∀ k doc, ((create cfg s f sid ts).1).orders k = some doc →
        s.orders k = some doc
        ∨ (k = sid ∧ doc.session_id = sid ∧ doc.paid = false ∧ doc.poster_filename = ""))
    ∧ (∀ g, g ≠ sid ++ ".json" → ((create cfg s f sid ts).1).invoices g = s.invoices g)
    ∧ (∀ inv, ((create cfg s f sid ts).1).invoices (sid ++ ".json") = some inv →
        s.invoices (sid ++ ".json") = some inv
        ∨ (inv.theme = f.theme.getD "feature_based" ∧ inv.price_cents = cfg.priceCents
           ∧ inv.currency = cfg.priceCurrency ∧ inv.created_at = ts)) := by
  refine ⟨?_, ?_, ?_⟩
  · intro k doc h
    simp only [create] at h
    repeat' split at h
    all_goals
      first
        | exact .inl h
        | (rcases save_order_cases _ _ _ _ h with h' | ⟨hk, hdoc⟩ <;>
            first
              | exact .inl h'
              | exact .inr ⟨hk, by subst hdoc; exact ⟨rfl, rfl, rfl⟩⟩)
  · intro g hg
    simp only [create]
    repeat' split
    all_goals
      first
        | rfl
        | (show build_invoice _ _ _ _ g = s.invoices g
           unfold build_invoice
           dsimp only
           rw [if_neg hg])
  · intro inv hinv
    simp only [create] at hinv
    repeat' split at hinv
    all_goals
      first
        | exact .inl hinv
        | (unfold build_invoice at hinv
           dsimp only at hinv
           rw [if_pos rfl] at hinv
           have hiv := (Option.some.inj hinv).symm
           subst hiv
           exact .inr ⟨rfl, rfl, rfl, rfl⟩)

/-- One request preserves the key-consistency and paid-iff-rendered
invariants, never deletes or overwrites an invoice, and stores an order
only for a session that already existed or is being created. -/
theorem applyLabel_master (cfg : Config) (l : Label) (s s1 : AppState)
    (h : applyLabel cfg l s = some s1)
    (hkey : ∀ sid doc, s.orders sid = some doc → doc.session_id = sid)
    (hinv : ∀ sid doc, s.orders sid = some doc →
      (doc.paid = true ↔ doc.poster_filename ≠ "")) :
    (∀ sid doc, s1.orders sid = some doc → doc.session_id = sid)
    ∧ (∀ sid doc, s1.orders sid = some doc → (doc.paid = true ↔ doc.poster_filename ≠ ""))
    ∧ (∀ g v, s.invoices g = some v → s1.invoices g = some v)
    ∧ (∀ sid, (s1.orders sid).isSome → (s.orders sid).isSome ∨ isCreateFor sid l = true) := by
  cases l with
  | create f sid ts =>
    unfold applyLabel at h
    dsimp only at h
    split at h
    · rename_i hfresh
      have hs1 := Option.some.inj h
      subst hs1
      refine ⟨?_, ?_, ?_, ?_⟩
      · intro sid' doc hd
        rcases (create_shape cfg s f sid ts).1 sid' doc hd with h' | ⟨hk, hsid, _, _⟩
        · exact hkey _ _ h'
        · rw [hk]
          exact hsid
      · intro sid' doc hd
        rcases (create_shape cfg s f sid ts).1 sid' doc hd with h' | ⟨_, _, hp, hpf⟩
        · exact hinv _ _ h'
        · rw [hp, hpf]
          simp
      · intro g v hv
        by_cases hg : g = sid ++ ".json"
        · subst hg
          have hx := hfresh.2
          rw [hv] at hx
          cases hx
        · rw [(create_shape cfg s f sid ts).2.1 g hg]
          exact hv
      · intro sid' hiso
        rcases Option.isSome_iff_exists.mp hiso with ⟨doc, hd⟩
        rcases (create_shape cfg s f sid ts).1 sid' doc hd with h' | ⟨hk, _, _, _⟩
        · exact .inl (by simp [h'])
        · subst hk
          right
          simp [isCreateFor]
    · exact Option.noConfusion h
  | purchase sid th =>
    have hs1 := Option.some.inj h
    subst hs1
    obtain ⟨hinvs, hord⟩ := purchase_shape cfg s sid th
    refine ⟨?_, ?_, ?_, ?_⟩
    · intro sid' doc hd
      rcases hord sid' doc hd with h' | ⟨o, hlo, hk, hsid, _, _⟩
      · exact hkey _ _ h'
      · obtain ⟨d, hdd, rfl⟩ := load_order_eq_some _ _ _ hlo
        rw [hsid]
        exact hk.symm
    · intro sid' doc hd
      rcases hord sid' doc hd with h' | ⟨o, hlo, _, _, hp, hpf⟩
      · exact hinv _ _ h'
      · obtain ⟨d, hdd, rfl⟩ := load_order_eq_some _ _ _ hlo
        rw [hp, hpf]
        exact hinv _ _ hdd
    · intro g v hv
      rw [hinvs]
      exact hv
    · intro sid' hiso
      rcases Option.isSome_iff_exists.mp hiso with ⟨doc, hd⟩
      rcases hord sid' doc hd with h' | ⟨o, hlo, hk, _, _, _⟩
      · exact .inl (by simp [h'])
      · left
        obtain ⟨d, hdd, rfl⟩ := load_order_eq_some _ _ _ hlo
        have hx : sid' = sid := hk.trans (hkey _ _ hdd)
        rw [hx, hdd]
        rfl
  | generateFinal sid ts =>
    have hs1 := Option.some.inj h
    subst hs1
    obtain ⟨hinvs, hord⟩ := generate_final_shape cfg s sid ts
    refine ⟨?_, ?_, ?_, ?_⟩
    · intro sid' doc hd
      rcases hord sid' doc hd with h' | ⟨o, hlo, hk, hsid, _, _⟩
      · exact hkey _ _ h'
      · rw [hsid]
        exact hk.symm
    · intro sid' doc hd
      rcases hord sid' doc hd with h' | ⟨o, hlo, _, _, hp, hpf⟩
      · exact hinv _ _ h'
      · rw [hp, hpf]
        simp [mkPosterFilename_ne_empty]
    · intro g v hv
      rw [hinvs]
      exact hv
    · intro sid' hiso
      rcases Option.isSome_iff_exists.mp hiso with ⟨doc, hd⟩
      rcases hord sid' doc hd with h' | ⟨o, hlo, hk, _, _, _⟩
      · exact .inl (by simp [h'])
      · left
        obtain ⟨d, hdd, rfl⟩ := load_order_eq_some _ _ _ hlo
        have hx : sid' = sid := hk.trans (hkey _ _ hdd)
        rw [hx, hdd]
        rfl
  | successReq oid ts =>
    have hs1 := Option.some.inj h
    subst hs1
    obtain ⟨hinvs, hord⟩ := successRoute_shape cfg s oid ts
    refine ⟨?_, ?_, ?_, ?_⟩
    · intro sid' doc hd
      rcases hord sid' doc hd with h' | ⟨sidv, o, hlo, hk, hsid, _, _⟩
      · exact hkey _ _ h'
      · rw [hsid]
        exact hk.symm
    · intro sid' doc hd
      rcases hord sid' doc hd with h' | ⟨sidv, o, hlo, _, _, hp, hpf⟩
      · exact hinv _ _ h'
      · rw [hp, hpf]
        simp [mkPosterFilename_ne_empty]
    · intro g v hv
      rw [hinvs]
      exact hv
    · intro sid' hiso
      rcases Option.isSome_iff_exists.mp hiso with ⟨doc, hd⟩
      rcases hord sid' doc hd with h' | ⟨sidv, o, hlo, hk, _, _, _⟩
      · exact .inl (by simp [h'])
      · left
        obtain ⟨d, hdd, rfl⟩ := load_order_eq_some _ _ _ hlo
        have hx : sid' = sidv := hk.trans (hkey _ _ hdd)
        rw [hx, hdd]
        rfl
  | webhook ev ts =>
    have hs1 := Option.some.inj h
    subst hs1
    obtain ⟨hinvs, hord⟩ := stripe_webhook_shape cfg s ev ts
    refine ⟨?_, ?_, ?_, ?_⟩
    · intro sid' doc hd
      rcases hord sid' doc hd with h' | ⟨sidv, o, hlo, hk, hsid, _, _⟩
      · exact hkey _ _ h'
      · rw [hsid]
        exact hk.symm
    · intro sid' doc hd
      rcases hord sid' doc hd with h' | ⟨sidv, o, hlo, _, _, hp, hpf⟩
      · exact hinv _ _ h'
      · rcases hpf with hpf | hpf
        · rw [hp, hpf]
          simp [mkPosterFilename_ne_empty]
        · rw [hp]
          simp [hpf]
    · intro g v hv
      rw [hinvs]
      exact hv
    · intro sid' hiso
      rcases Option.isSome_iff_exists.mp hiso with ⟨doc, hd⟩
      rcases hord sid' doc hd with h' | ⟨sidv, o, hlo, hk, _, _, _⟩
      · exact .inl (by simp [h'])
      · left
        obtain ⟨d, hdd, rfl⟩ := load_order_eq_some _ _ _ hlo
        have hx : sid' = sidv := hk.trans (hkey _ _ hdd)
        rw [hx, hdd]
        rfl
  | previewImage sid th =>
    have hs1 := Option.some.inj h
    subst hs1
    obtain ⟨hinvs, hords⟩ := preview_image_shape cfg s sid th
    refine ⟨?_, ?_, ?_, ?_⟩
    · intro sid' doc hd
      rw [hords] at hd
      exact hkey _ _ hd
    · intro sid' doc hd
      rw [hords] at hd
      exact hinv _ _ hd
    · intro g v hv
      rw [hinvs]
      exact hv
    · intro sid' hiso
      rw [hords] at hiso
      exact .inl hiso
  | readonly =>
    have hs1 := Option.some.inj h
    subst hs1
    exact ⟨hkey, hinv, fun g v hv => hv, fun sid hs => .inl hs⟩

/-- The `applyLabel_master` lifted to whole request traces. -/
theorem runTrace_master (cfg : Config) :
    ∀ (tr : List Label) (s0 s : AppState), runTrace cfg tr s0 = some s →
    (∀ sid doc, s0.orders sid = some doc → doc.session_id = sid) →
    (∀ sid doc, s0.orders sid = some doc → (doc.paid = true ↔ doc.poster_filename ≠ "")) →
    (∀ sid doc, s.orders sid = some doc → doc.session_id = sid)
    ∧ (∀ sid doc, s.orders sid = some doc → (doc.paid = true ↔ doc.poster_filename ≠ ""))
    ∧ (∀ g v, s0.invoices g = some v → s.invoices g = some v)
    ∧ (∀ sid, (s.orders sid).isSome →
        (s0.orders sid).isSome ∨ ∃ l, l ∈ tr ∧ isCreateFor sid l = true) := by
  intro tr
  induction tr with
  | nil =>
    intro s0 s h hkey hinv
    have hs := Option.some.inj h
    subst hs
    exact ⟨hkey, hinv, fun g v hv => hv, fun sid hs => .inl hs⟩
  | cons l ls ih =>
    intro s0 s h hkey hinv
    rcases happ : applyLabel cfg l s0 with _ | s1
    · unfold runTrace at h
      rw [happ] at h
      exact Option.noConfusion h
    · unfold runTrace at h
      rw [happ] at h
      obtain ⟨hk1, hi1, hv1, hc1⟩ := applyLabel_master cfg l s0 s1 happ hkey hinv
      obtain ⟨hk2, hi2, hv2, hc2⟩ := ih s1 s h hk1 hi1
      refine ⟨hk2, hi2, fun g v hv => hv2 g v (hv1 g v hv), ?_⟩
      intro sid hs
      rcases hc2 sid hs with hs1 | ⟨lx, hlx, hcf⟩
      · rcases hc1 sid hs1 with hs0 | hcf
        · exact .inl hs0
        · exact .inr ⟨l, List.mem_cons_self l ls, hcf⟩
      · exact .inr ⟨lx, List.mem_cons_of_mem l hlx, hcf⟩

/-- C1 counterexample: the trace `/create` then `GET /generate-final`
renders the watermark-free final poster and marks the order paid while
containing no purchase and no payment-webhook step, so the claimed
ordering property is false as stated. -/
theorem final_render_without_payment : ¬ orderFlowPaymentGated := by
  intro hclaim
  have hx := hclaim cfgGeo cexTrace stateCex rfl "a" docCex (by decide) (by decide) (by decide)
  exact absurd hx (by decide)

/-- C1 (amended): the final watermark-free render for an order happens
only after that order was created by `/create` (the preview step); the
purchase/payment step is not required, because `GET /generate-final`
performs the final render for any stored order. -/
theorem final_render_requires_creation (cfg : Config) (tr : List Label) (s : AppState)
    (h : runTrace cfg tr initState = some s) :
    ∀ sid doc, s.orders sid = some doc → doc.paid = true →
      ∃ l, l ∈ tr ∧ isCreateFor sid l = true := by
  intro sid doc hd _hpaid
  have hm := (runTrace_master cfg tr initState s h
    (fun _ _ hd0 => Option.noConfusion hd0)
    (fun _ _ hd0 => Option.noConfusion hd0)).2.2.2 sid (by rw [hd]; rfl)
  rcases hm with hs | hex
  · exact Bool.noConfusion hs
  · exact hex

/-- Witness for the amended C1 on the concrete two-request trace. -/
theorem final_render_requires_creation_witness :
    ∃ l, l ∈ cexTrace ∧ isCreateFor "a" l = true :=
  final_render_requires_creation cfgGeo cexTrace stateCex rfl "a" docCex
    (by decide) (by decide)

/-- C6: every order document ever stored by the application satisfies
`paid = True` exactly when `poster_filename` is non-empty: `/create`
writes `paid=False` with an empty filename, and `/generate-final`, the
webhook and `/success` set both together, so the (paid, rendered) state
space collapses to two of the four combinations. -/
theorem order_state_machine_invariant (cfg : Config) (tr : List Label) (s : AppState)
    (h : runTrace cfg tr initState = some s) :
    ∀ sid doc, s.orders sid = some doc → (doc.paid = true ↔ doc.poster_filename ≠ "") :=
  (runTrace_master cfg tr initState s h
    (fun _ _ hd0 => Option.noConfusion hd0)
    (fun _ _ hd0 => Option.noConfusion hd0)).2.1

/-- Witness for C6 on concrete one- and two-request traces. -/
theorem order_state_machine_invariant_witness :
    (docCreated.paid = true ↔ docCreated.poster_filename ≠ "")
    ∧ (docCex.paid = true ↔ docCex.poster_filename ≠ "") :=
  ⟨order_state_machine_invariant cfgGeo [Label.create formTokyo "a" "t0"] stateW rfl
      "a" docCreated (by decide),
   order_state_machine_invariant cfgGeo cexTrace stateCex rfl "a" docCex (by decide)⟩

/-- No request removes or rewrites an existing invoice file. -/
theorem applyLabel_invoices_mono (cfg : Config) (l : Label) (s s1 : AppState)
    (h : applyLabel cfg l s = some s1) :
    ∀ g v, s.invoices g = some v → s1.invoices g = some v := by
  cases l with
  | create f sid ts =>
    unfold applyLabel at h
    dsimp only at h
    split at h
    · rename_i hfresh
      have hs1 := Option.some.inj h
      subst hs1
      intro g v hv
      by_cases hg : g = sid ++ ".json"
      · subst hg
        have hx := hfresh.2
        rw [hv] at hx
        cases hx
      · rw [(create_shape cfg s f sid ts).2.1 g hg]
        exact hv
    · exact Option.noConfusion h
  | purchase sid th =>
    have hs1 := Option.some.inj h
    subst hs1
    intro g v hv
    rw [(purchase_shape cfg s sid th).1]
    exact hv
  | generateFinal sid ts =>
    have hs1 := Option.some.inj h
    subst hs1
    intro g v hv
    rw [(generate_final_shape cfg s sid ts).1]
    exact hv
  | successReq oid ts =>
    have hs1 := Option.some.inj h
    subst hs1
    intro g v hv
    rw [(successRoute_shape cfg s oid ts).1]
    exact hv
  | webhook ev ts =>
    have hs1 := Option.some.inj h
    subst hs1
    intro g v hv
    rw [(stripe_webhook_shape cfg s ev ts).1]
    exact hv
  | previewImage sid th =>
    have hs1 := Option.some.inj h
    subst hs1
    intro g v hv
    rw [(preview_image_shape cfg s sid th).1]
    exact hv
  | readonly =>
    have hs1 := Option.some.inj h
    subst hs1
    exact fun g v hv => hv

/-- Requests other than `/create` leave the invoices directory
byte-for-byte identical. -/
theorem applyLabel_invoices_eq (cfg : Config) (l : Label) (s s1 : AppState)
    (h : applyLabel cfg l s = some s1) (hnc : isCreateLabel l = false) :
    s1.invoices = s.invoices := by
  cases l with
  | create f sid ts => exact Bool.noConfusion hnc
  | purchase sid th =>
    have hs1 := Option.some.inj h
    subst hs1
    exact (purchase_shape cfg s sid th).1
  | generateFinal sid ts =>
    have hs1 := Option.some.inj h
    subst hs1
    exact (generate_final_shape cfg s sid ts).1
  | successReq oid ts =>
    have hs1 := Option.some.inj h
    subst hs1
    exact (successRoute_shape cfg s oid ts).1
  | webhook ev ts =>
    have hs1 := Option.some.inj h
    subst hs1
    exact (stripe_webhook_shape cfg s ev ts).1
  | previewImage sid th =>
    have hs1 := Option.some.inj h
    subst hs1
    exact (preview_image_shape cfg s sid th).1
  | readonly =>
    have hs1 := Option.some.inj h
    subst hs1
    rfl

/-- C2: the invoice file is written exactly once per order, at creation
by `build_invoice`, and never modified afterwards: every stored invoice
survives every request unchanged, only `/create` writes any invoice,
`/purchase` re-saves the order (with the newly selected theme) but
leaves the invoices directory identical, and the invoice written at
creation records the creation-time theme, price and currency. -/
theorem invoice_written_once (cfg : Config) :
    (∀ l s s1, applyLabel cfg l s = some s1 →
       ∀ g v, s.invoices g = some v → s1.invoices g = some v)
    ∧ (∀ l s s1, applyLabel cfg l s = some s1 → isCreateLabel l = false →
       s1.invoices = s.invoices)
    ∧ (∀ s sid th, ((purchase cfg s sid th).1).invoices = s.invoices)
    ∧ (∀ s sid o tNew, load_order s.orders sid = some o → tNew ≠ o.theme →
       ((purchase cfg s sid (some tNew)).1).orders o.session_id
         = some (orderToDoc { o with theme := tNew }))
    ∧ (∀ f sid ts s s1, applyLabel cfg (.create f sid ts) s = some s1 →
       ∀ inv, s1.invoices (sid ++ ".json") = some inv →
         inv.theme = f.theme.getD "feature_based" ∧ inv.price_cents = cfg.priceCents
         ∧ inv.currency = cfg.priceCurrency ∧ inv.created_at = ts) := by
  refine ⟨applyLabel_invoices_mono cfg, applyLabel_invoices_eq cfg, ?_, ?_, ?_⟩
  · intro s sid th
    exact (purchase_shape cfg s sid th).1
  · intro s sid o tNew hl hne
    unfold purchase
    simp only [hl, Option.getD_some]
    rw [if_pos hne, if_pos hne]
    unfold save_order
    dsimp only
    rw [if_pos rfl]
  · intro f sid ts s s1 h inv hinv
    unfold applyLabel at h
    dsimp only at h
    split at h
    · rename_i hfresh
      have hs1 := Option.some.inj h
      subst hs1
      rcases (create_shape cfg s f sid ts).2.2 inv hinv with h' | hsnap
      · have hx := hfresh.2
        rw [h'] at hx
        cases hx
      · exact hsnap
    · exact Option.noConfusion h

/-- Witness for C2: a concrete create-then-purchase pair where the
theme changes but the invoice still records the creation-time data. -/
theorem invoice_written_once_witness :
    ((purchase cfgGeo stateW "a" (some "blueprint")).1).orders "a"
      = some (orderToDoc { docToOrder docCreated with theme := "blueprint" })
    ∧ ((purchase cfgGeo stateW "a" (some "blueprint")).1).invoices = stateW.invoices
    ∧ (invCreated.theme = formTokyo.theme.getD "feature_based"
       ∧ invCreated.price_cents = cfgGeo.priceCents
       ∧ invCreated.currency = cfgGeo.priceCurrency ∧ invCreated.created_at = "t0") :=
  ⟨(invoice_written_once cfgGeo).2.2.2.1 stateW "a" (docToOrder docCreated) "blueprint"
      (by decide) (by decide),
   (invoice_written_once cfgGeo).2.2.1 stateW "a" (some "blueprint"),
   (invoice_written_once cfgGeo).2.2.2.2 formTokyo "a" "t0" initState stateW rfl
      invCreated (by decide)⟩
